import Mathlib

/-!
Verification of the ts-utils container library: a `Result` (Ok/Error)
container, an `Optional` (Some/None) container, their combinator and
iteration protocols, the throwing-function wrapping factories, and the
bounded-retry engine. The runtime implementation files (`result.ts`,
`optional.ts`) are not part of the provided sources (only their test
suites are), so the operational definitions below are modelled from the
specification and cross-checked against the behaviour the test suites
assert.
-/

namespace TsUtils

/-- Modelled from the spec: `Result<T, E>` is a tagged union that carries
exactly one of an Ok value or an Error value (`result.ts` is missing from
the sources). -/
inductive Result (T E : Type) where
  | ok (value : T)
  | error (err : E)
deriving DecidableEq, Repr

/-- Modelled from the spec: `Optional<T>` is a tagged union of Some(value)
and None (`optional.ts` is missing from the sources). -/
inductive Optional (T : Type) where
  | some (value : T)
  | none
deriving DecidableEq, Repr

/-- Modelled from the spec: `is_ok()` predicate of `Result`. -/
def Result.is_ok {T E : Type} : Result T E → Bool
  | .ok _ => true
  | .error _ => false

/-- Modelled from the spec: `is_error()` predicate of `Result`. -/
def Result.is_error {T E : Type} : Result T E → Bool
  | .ok _ => false
  | .error _ => true

/-- Modelled from the spec: `value_or(default)` of `Result`. -/
def Result.value_or {T E : Type} : Result T E → T → T
  | .ok v, _ => v
  | .error _, d => d

/-- Modelled from the spec: `error_or(default)` of `Result`. -/
def Result.error_or {T E : Type} : Result T E → E → E
  | .ok _, d => d
  | .error e, _ => e

/-- Modelled from the spec: `map(fn)` of `Result` — transforms the Ok
value, returns the Error unchanged without invoking `fn`. -/
def Result.map {T E U : Type} : Result T E → (T → U) → Result U E
  | .ok v, fn => .ok (fn v)
  | .error e, _ => .error e

/-- Modelled from the spec: `map_err(fn)` of `Result` — transforms the
Error value, returns the Ok unchanged without invoking `fn`. -/
def Result.map_err {T E F : Type} : Result T E → (E → F) → Result T F
  | .ok v, _ => .ok v
  | .error e, fn => .error (fn e)

/-- Modelled from the spec: `and_then(fn)` of `Result` — chains through
`fn` on Ok, short-circuits on Error without invoking `fn`. -/
def Result.and_then {T E U : Type} : Result T E → (T → Result U E) → Result U E
  | .ok v, fn => fn v
  | .error e, _ => .error e

/-- Modelled from the spec: `or_else(fn)` of `Result` — falls back through
`fn` on Error, passes Ok through unchanged without invoking `fn`. -/
def Result.or_else {T E F : Type} : Result T E → (E → Result T F) → Result T F
  | .ok v, _ => .ok v
  | .error e, fn => fn e

/-- Modelled from the spec: the `Symbol.toStringTag` introspection getter
of every `Result` instance, a stable string identifying the type. -/
def Result.toStringTag {T E : Type} (_ : Result T E) : String := "Result"

/-- Modelled from the spec: `is_some()` predicate of `Optional`. -/
def Optional.is_some {T : Type} : Optional T → Bool
  | .some _ => true
  | .none => false

/-- Modelled from the spec: `value_or(default)` of `Optional`. -/
def Optional.value_or {T : Type} : Optional T → T → T
  | .some v, _ => v
  | .none, d => d

/-- Modelled from the spec: `map(fn)` of `Optional` — skipped on None. -/
def Optional.map {T U : Type} : Optional T → (T → U) → Optional U
  | .some v, fn => .some (fn v)
  | .none, _ => .none

/-- Modelled from the spec: `and_then(fn)` of `Optional` — short-circuits
on None. -/
def Optional.and_then {T U : Type} : Optional T → (T → Optional U) → Optional U
  | .some v, fn => fn v
  | .none, _ => .none

/-- Modelled from the spec: `or_else(fn)` of `Optional` — invoked only on
None. -/
def Optional.or_else {T : Type} : Optional T → (Unit → Optional T) → Optional T
  | .some v, _ => .some v
  | .none, fn => fn ()

/-- Modelled from the spec: the `Symbol.toStringTag` introspection getter
of every `Optional` instance. -/
def Optional.toStringTag {T : Type} (_ : Optional T) : String := "Optional"

/-- Modelled from the spec: the `result.ok(value)` factory. -/
def result.ok {T E : Type} (v : T) : Result T E := .ok v

/-- Modelled from the spec: the `result.error(err)` factory. -/
def result.error {T E : Type} (e : E) : Result T E := .error e

/-- Modelled from the spec: the `optional.some(value)` factory. -/
def optional.some {T : Type} (v : T) : Optional T := .some v

/-- Modelled from the spec: the `optional.none()` factory. -/
def optional.none {T : Type} : Optional T := .none

/-- An error-like host object: a class identity (Error / TypeError /
RangeError / a custom subclass), a `name` property and a `message`
property. Used to model by-reference storage of raised error objects. -/
structure JSError where
  subclass : String
  name : String
  message : String
deriving DecidableEq, Repr

/-- A host-language runtime value, as far as the wrapping factories need
to distinguish them: the two "no value" sentinels, primitives, and
error-like objects. -/
inductive JSValue where
  | null
  | undefined
  | boolean (b : Bool)
  | number (n : Int)
  | string (s : String)
  | errObj (e : JSError)
deriving DecidableEq, Repr

/-- Whether a runtime value is an error-like object (`instanceof Error`). -/
def JSValue.isErrorLike : JSValue → Bool
  | .errObj _ => true
  | _ => false

/-- Whether a runtime value is a "no value" sentinel (null/undefined). -/
def JSValue.isNullish : JSValue → Bool
  | .null => true
  | .undefined => true
  | _ => false

/-- Modelled from the spec: the host language's string representation of a
value (`String(v)`), used when a non-error raised value is normalized. -/
def JSValue.jsToString : JSValue → String
  | .null => "null"
  | .undefined => "undefined"
  | .boolean b => if b then "true" else "false"
  | .number n => toString n
  | .string s => s
  | .errObj e => if e.message = "" then e.name else e.name ++ ": " ++ e.message

/-- Modelled from the spec: normalization of a raised value inside
`of`/`of_async` — an error-like object is stored by reference (the very
same object, subclass identity preserved); any other value becomes a
generic error object (`new Error(String(v))`) whose message is the
value's string representation. -/
def normalizeThrown (v : JSValue) : JSError :=
  match v with
  | .errObj e => e
  | other => ⟨"Error", "Error", other.jsToString⟩

/-- Modelled from the spec: `result.of(fn)` — invokes `fn`; a completed
computation's return value is wrapped in Ok, a raised value is normalized
and wrapped in Error. The single invocation of the zero-argument `fn` is
embedded as its outcome: `Except.ok` a return value or `Except.error` a
raised value. -/
def result.of {V : Type} (fn : Except JSValue V) : Result V JSError :=
  match fn with
  | .ok v => .ok v
  | .error raised => .error (normalizeThrown raised)

/-- Modelled from the spec: `result.of_async(fn)` — same contract as `of`
applied to the settled outcome of the awaitable (resolved value or
rejection reason), using the same normalization rule. -/
def result.of_async {V : Type} (fn : Except JSValue V) : Result V JSError :=
  match fn with
  | .ok v => .ok v
  | .error reason => .error (normalizeThrown reason)

/-- Modelled from the spec: `optional.from(fn)` — invokes `fn`; if the
result is a "no value" sentinel, returns None, otherwise Some(result).
The single invocation of `fn` is embedded as the value it returns. -/
def optional.from_ (fnResult : JSValue) : Optional JSValue :=
  if fnResult.isNullish then .none else .some fnResult

/-- Modelled from the spec: `optional.from_async(fn)` — the same contract
as `from` applied to the awaited result. -/
def optional.from_async (fnResult : JSValue) : Optional JSValue :=
  if fnResult.isNullish then .none else .some fnResult

/-- Modelled from the spec: the Retry Aggregate Error — a fixed name, a
message of the form "Failed after N attempts.", and the underlying errors
in attempt order. -/
structure RetryError (E : Type) where
  name : String
  message : String
  errors : List E
deriving DecidableEq, Repr

/-- Modelled from the spec: the attempt loop of `retry`. `remaining`
counts the attempts still allowed, `calls` the invocations of `fn` made
so far, and `errs` the errors collected so far in attempt order. The
stateful zero-argument `fn` is embedded as a function from its invocation
index to the Result that invocation produces; the loop returns the final
Result together with the total number of invocations made. -/
def retryLoop {T E : Type} (fn : Nat → Result T E) (maxAttempts : Nat) :
    Nat → Nat → List E → Result T (RetryError E) × Nat
  | 0, calls, errs =>
      (.error ⟨"Result Retry Error",
        "Failed after " ++ toString maxAttempts ++ " attempts.", errs⟩, calls)
  | remaining + 1, calls, errs =>
      match fn calls with
      | .ok v => (.ok v, calls + 1)
      | .error e => retryLoop fn maxAttempts remaining (calls + 1) (errs ++ [e])

/-- Modelled from the spec: `result.retry(fn, maxAttempts)` — invokes `fn`
up to `maxAttempts` times strictly sequentially, returns the first Ok
immediately, collects each Error in attempt order, and on exhaustion
returns an Error wrapping the Retry Aggregate Error. Returns the Result
together with the number of times `fn` was invoked. -/
def result.retry {T E : Type} (fn : Nat → Result T E) (maxAttempts : Nat) :
    Result T (RetryError E) × Nat :=
  retryLoop fn maxAttempts maxAttempts 0 []

/-- The state of one iterator obtained from a container's
`Symbol.iterator`: the container it reads from and whether the single
generator step has already run. -/
structure ResultIterState (T E : Type) where
  res : Result T E
  used : Bool
deriving DecidableEq, Repr

/-- Modelled from the spec: one `next()` step of the Result generator
(`function* () { if (this.is_ok()) yield this.value; }`): before the
first step an Ok yields its value and an Error finishes; afterwards the
iterator is exhausted. -/
def resultIterNext {T E : Type} (s : ResultIterState T E) :
    Option T × ResultIterState T E :=
  if s.used then (Option.none, s)
  else
    match s.res with
    | .ok v => (Option.some v, { s with used := true })
    | .error _ => (Option.none, { s with used := true })

/-- Modelled from the spec: each call to `Symbol.iterator` produces a
fresh iterator with no shared iteration state. -/
def result.iter {T E : Type} (r : Result T E) : ResultIterState T E :=
  ⟨r, false⟩

/-- Drives a Result iterator like a `for..of` loop: repeatedly calls
`next` and collects yielded values until the iterator reports done (or
the fuel runs out). -/
def collectResult {T E : Type} : Nat → ResultIterState T E → List T
  | 0, _ => []
  | fuel + 1, s =>
      match resultIterNext s with
      | (Option.none, _) => []
      | (Option.some v, s2) => v :: collectResult fuel s2

/-- One full, fresh iteration pass over a Result (enough fuel for the
at-most-one-element protocol). -/
def result.iterate {T E : Type} (r : Result T E) : List T :=
  collectResult 2 (result.iter r)

/-- The state of one iterator obtained from an Optional's
`Symbol.iterator`. -/
structure OptionalIterState (T : Type) where
  opt : Optional T
  used : Bool
deriving DecidableEq, Repr

/-- Modelled from the spec: one `next()` step of the Optional generator —
identical protocol to Result: 1 element for Some, 0 for None. -/
def optionalIterNext {T : Type} (s : OptionalIterState T) :
    Option T × OptionalIterState T :=
  if s.used then (Option.none, s)
  else
    match s.opt with
    | .some v => (Option.some v, { s with used := true })
    | .none => (Option.none, { s with used := true })

/-- Modelled from the spec: each call to `Symbol.iterator` on an Optional
produces a fresh iterator. -/
def optional.iter {T : Type} (o : Optional T) : OptionalIterState T :=
  ⟨o, false⟩

/-- Drives an Optional iterator like a `for..of` loop. -/
def collectOptional {T : Type} : Nat → OptionalIterState T → List T
  | 0, _ => []
  | fuel + 1, s =>
      match optionalIterNext s with
      | (Option.none, _) => []
      | (Option.some v, s2) => v :: collectOptional fuel s2

/-- One full, fresh iteration pass over an Optional. -/
def optional.iterate {T : Type} (o : Optional T) : List T :=
  collectOptional 2 (optional.iter o)

/-- The raw shape a caller could pass to the container constructor when
bypassing the named factories: each variant-defining field is either
present (with a value) or absent. -/
structure RawShape (T E : Type) where
  okField : Option T
  errorField : Option E
deriving DecidableEq, Repr

/-- Modelled from the spec: the validating constructor behind the
factories — any path building a Result from a raw shape must check that
exactly one of the variant-defining fields is present and fail fast
(raise) on shapes with zero or both fields set. A raise is embedded as
`Except.error` carrying the construction error. -/
def resultConstruct {T E : Type} (shape : RawShape T E) :
    Except String (Result T E) :=
  match shape.okField, shape.errorField with
  | Option.some v, Option.none => .ok (.ok v)
  | Option.none, Option.some e => .ok (.error e)
  | Option.none, Option.none =>
      .error "Result must be constructed with exactly one of ok or error."
  | Option.some _, Option.some _ =>
      .error "Result must be constructed with exactly one of ok or error."

/-- Whether construction from a raw shape succeeds. -/
def constructSucceeds {T E : Type} (shape : RawShape T E) : Bool :=
  match resultConstruct shape with
  | .ok _ => true
  | .error _ => false

/-- The `fn` used in the concrete retry-success instantiation: errors on
invocation 0, succeeds on invocation 1. -/
def retryOkFn : Nat → Result String String :=
  fun i => if i = 1 then Result.ok "yes" else Result.error ("e" ++ toString i)

/-! ### Helper lemmas -/

theorem retryLoop_all_errors {T E : Type} (fn : Nat → Result T E) (es : Nat → E)
    (N : Nat) (hfn : ∀ i, fn i = Result.error (es i)) :
    ∀ rem calls errs, retryLoop fn N rem calls errs =
      (Result.error ⟨"Result Retry Error",
        "Failed after " ++ toString N ++ " attempts.",
        errs ++ (List.range' calls rem).map es⟩, calls + rem) := by
  intro rem
  induction rem with
  | zero => intro calls errs; simp [retryLoop]
  | succ rem ih =>
      intro calls errs
      simp only [retryLoop, hfn calls]
      rw [ih (calls + 1) (errs ++ [es calls])]
      rw [List.range'_succ]
      simp [List.append_assoc]
      omega

theorem retryLoop_reaches_ok {T E : Type} (fn : Nat → Result T E) (N k : Nat)
    (v : T) (hk1 : 1 ≤ k) (hkN : k ≤ N) (hok : fn (k - 1) = Result.ok v)
    (herr : ∀ i, i < k - 1 → ∃ e, fn i = Result.error e) :
    ∀ rem calls errs, calls + rem = N → calls ≤ k - 1 →
      retryLoop fn N rem calls errs = (Result.ok v, k) := by
  intro rem
  induction rem with
  | zero => intro calls errs hsum hle; omega
  | succ rem ih =>
      intro calls errs hsum hle
      by_cases hc : calls = k - 1
      · simp only [retryLoop, hc, hok]
        have hk : k - 1 + 1 = k := by omega
        rw [hk]
      · obtain ⟨e, he⟩ := herr calls (by omega)
        simp only [retryLoop, he]
        exact ih (calls + 1) (errs ++ [e]) (by omega) (by omega)

theorem retryLoop_error_named {T E : Type} (fn : Nat → Result T E) (N : Nat) :
    ∀ rem calls errs agg,
      (retryLoop fn N rem calls errs).1 = Result.error agg →
      agg.name = "Result Retry Error" := by
  intro rem
  induction rem with
  | zero =>
      intro calls errs agg h
      simp [retryLoop] at h
      rw [← h]
  | succ rem ih =>
      intro calls errs agg h
      rw [retryLoop] at h
      cases hfn : fn calls with
      | ok v => rw [hfn] at h; simp at h
      | error e => rw [hfn] at h; exact ih (calls + 1) (errs ++ [e]) agg h

theorem collectResult_used {T E : Type} :
    ∀ fuel (s : ResultIterState T E), s.used = true → collectResult fuel s = [] := by
  intro fuel s hs
  cases fuel with
  | zero => rfl
  | succ fuel => simp [collectResult, resultIterNext, hs]

theorem collectOptional_used {T : Type} :
    ∀ fuel (s : OptionalIterState T), s.used = true → collectOptional fuel s = [] := by
  intro fuel s hs
  cases fuel with
  | zero => rfl
  | succ fuel => simp [collectOptional, optionalIterNext, hs]

/-! ### Claim theorems -/

/-- Claim C1: for a zero-argument `fn` returning an Error on every invocation
and any `maxAttempts` N ≥ 1, `retry(fn, N)` invokes `fn` exactly N times
and returns an Error wrapping the Retry Aggregate Error whose `errors`
sequence has length N, contains the very error produced by each attempt
in attempt order, and whose message is "Failed after N attempts." -/
theorem retry_exhaustion_aggregates_all_errors {T E : Type} (es : Nat → E)
    (N : Nat) (hN : 1 ≤ N) :
    result.retry (fun i => Result.error (T := T) (es i)) N =
      (Result.error ⟨"Result Retry Error",
        "Failed after " ++ toString N ++ " attempts.", (List.range N).map es⟩, N)
    ∧ ((List.range N).map es).length = N := by
  constructor
  · unfold result.retry
    rw [retryLoop_all_errors (fun i => Result.error (T := T) (es i)) es N
      (fun i => rfl) N 0 []]
    rw [List.range_eq_range']
    simp
  · simp

theorem retry_exhaustion_aggregates_all_errors_witness :
    1 ≤ 3 ∧
    (result.retry (fun i => Result.error (T := Nat) ("e" ++ toString i)) 3 =
      (Result.error ⟨"Result Retry Error", "Failed after 3 attempts.",
        ["e0", "e1", "e2"]⟩, 3)
    ∧ ((List.range 3).map (fun i => "e" ++ toString i)).length = 3) :=
  ⟨by decide,
    by simpa using
      retry_exhaustion_aggregates_all_errors (T := Nat)
        (fun i => "e" ++ toString i) 3 (by decide)⟩

/-- Claim C2: on an Error Result, `map` and `and_then` return the original
Error unchanged; on an Ok Result, `map_err` and `or_else` return the
original Ok unchanged. In each case the outcome is the same for every
callback, so the callback is never invoked on the wrong branch. -/
theorem combinators_skip_wrong_branch {T E U F : Type} (e : E) (v : T)
    (f : T → U) (g : T → Result U E) (h : E → F) (j : E → Result T F) :
    (result.error (T := T) e).map f = result.error e
    ∧ (result.error (T := T) e).and_then g = result.error e
    ∧ (result.ok (E := E) v).map_err h = result.ok v
    ∧ (result.ok (E := E) v).or_else j = result.ok v
    ∧ (∀ f2 : T → U, (result.error (T := T) e).map f = (result.error (T := T) e).map f2)
    ∧ (∀ g2 : T → Result U E,
        (result.error (T := T) e).and_then g = (result.error (T := T) e).and_then g2)
    ∧ (∀ h2 : E → F, (result.ok (E := E) v).map_err h = (result.ok (E := E) v).map_err h2)
    ∧ (∀ j2 : E → Result T F,
        (result.ok (E := E) v).or_else j = (result.ok (E := E) v).or_else j2) :=
  ⟨rfl, rfl, rfl, rfl, fun _ => rfl, fun _ => rfl, fun _ => rfl, fun _ => rfl⟩

/-- Claim C3: a raised value that is an error-like object is stored in the
returned Error by reference (the very same object, subclass identity
included), by both `of` and `of_async`; any other raised value yields a
generic error object whose message is the raised value's string
representation. -/
theorem of_wrapping_preserves_and_normalizes {V : Type} (e : JSError)
    (raised : JSValue) (hr : raised.isErrorLike = false) :
    result.of (V := V) (Except.error (JSValue.errObj e)) = Result.error e
    ∧ result.of_async (V := V) (Except.error (JSValue.errObj e)) = Result.error e
    ∧ result.of (V := V) (Except.error raised) =
        Result.error ⟨"Error", "Error", raised.jsToString⟩
    ∧ result.of_async (V := V) (Except.error raised) =
        Result.error ⟨"Error", "Error", raised.jsToString⟩ := by
  refine ⟨rfl, rfl, ?_, ?_⟩ <;>
    cases raised <;>
      simp_all [result.of, result.of_async, normalizeThrown, JSValue.isErrorLike]

theorem of_wrapping_preserves_and_normalizes_witness :
    (JSValue.string "boom").isErrorLike = false
    ∧ (result.of (V := Nat) (Except.error (JSValue.errObj
          ⟨"TypeError", "TypeError", "Custom type error"⟩)) =
        Result.error ⟨"TypeError", "TypeError", "Custom type error"⟩
      ∧ result.of_async (V := Nat) (Except.error (JSValue.errObj
          ⟨"TypeError", "TypeError", "Custom type error"⟩)) =
        Result.error ⟨"TypeError", "TypeError", "Custom type error"⟩
      ∧ result.of (V := Nat) (Except.error (JSValue.string "boom")) =
        Result.error ⟨"Error", "Error", "boom"⟩
      ∧ result.of_async (V := Nat) (Except.error (JSValue.string "boom")) =
        Result.error ⟨"Error", "Error", "boom"⟩) :=
  ⟨by decide,
    by simpa using
      of_wrapping_preserves_and_normalizes (V := Nat)
        ⟨"TypeError", "TypeError", "Custom type error"⟩
        (JSValue.string "boom") (by decide)⟩

/-- Claim C4: a fresh iteration pass over Ok/Some yields exactly the one
contained value, over Error/None yields nothing; a pass is the same
however far the consumer drives the fresh iterator (the fuel conjuncts),
and a second fresh pass yields the same sequence again. -/
theorem iteration_protocol_at_most_one_element {T E U : Type} (v : T) (e : E)
    (w : U) (r : Result T E) (o : Optional U) :
    result.iterate (result.ok (E := E) v) = [v]
    ∧ result.iterate (result.error (T := T) e) = []
    ∧ optional.iterate (optional.some w) = [w]
    ∧ optional.iterate (optional.none (T := U)) = []
    ∧ (∀ fuel : Nat, collectResult (fuel + 1) (result.iter r) = result.iterate r)
    ∧ (∀ fuel : Nat, collectOptional (fuel + 1) (optional.iter o) = optional.iterate o)
    ∧ (result.iterate r, result.iterate r) =
        (collectResult 2 (result.iter r), collectResult 2 (result.iter r)) := by
  refine ⟨rfl, rfl, rfl, rfl, ?_, ?_, rfl⟩
  · intro fuel
    cases r with
    | ok v' =>
        have h1 : collectResult (fuel + 1)
            (⟨Result.ok v', false⟩ : ResultIterState T E)
            = v' :: collectResult fuel (⟨Result.ok v', true⟩ : ResultIterState T E) := by
          simp [collectResult, resultIterNext]
        have h2 : collectResult 2 (⟨Result.ok v', false⟩ : ResultIterState T E)
            = v' :: collectResult 1 (⟨Result.ok v', true⟩ : ResultIterState T E) := by
          simp [collectResult, resultIterNext]
        simp only [result.iterate, result.iter]
        rw [h1, h2, collectResult_used fuel ⟨Result.ok v', true⟩ rfl,
          collectResult_used 1 ⟨Result.ok v', true⟩ rfl]
    | error e' =>
        simp [result.iterate, result.iter, collectResult, resultIterNext]
  · intro fuel
    cases o with
    | some w' =>
        have h1 : collectOptional (fuel + 1)
            (⟨Optional.some w', false⟩ : OptionalIterState U)
            = w' :: collectOptional fuel (⟨Optional.some w', true⟩ : OptionalIterState U) := by
          simp [collectOptional, optionalIterNext]
        have h2 : collectOptional 2 (⟨Optional.some w', false⟩ : OptionalIterState U)
            = w' :: collectOptional 1 (⟨Optional.some w', true⟩ : OptionalIterState U) := by
          simp [collectOptional, optionalIterNext]
        simp only [optional.iterate, optional.iter]
        rw [h1, h2, collectOptional_used fuel ⟨Optional.some w', true⟩ rfl,
          collectOptional_used 1 ⟨Optional.some w', true⟩ rfl]
    | none =>
        simp [optional.iterate, optional.iter, collectOptional, optionalIterNext]

/-- Claim C5: if `fn` returns Ok on its k-th invocation (k ≤ N) after Errors on
the first k−1, then `retry(fn, N)` returns that Ok and `fn` is invoked
exactly k times. -/
theorem retry_returns_first_ok {T E : Type} (fn : Nat → Result T E) (N k : Nat)
    (v : T) (hk1 : 1 ≤ k) (hkN : k ≤ N) (hok : fn (k - 1) = Result.ok v)
    (herr : ∀ i, i < k - 1 → ∃ e, fn i = Result.error e) :
    result.retry fn N = (Result.ok v, k) := by
  unfold result.retry
  exact retryLoop_reaches_ok fn N k v hk1 hkN hok herr N 0 [] (by omega) (by omega)

theorem retry_returns_first_ok_witness :
    1 ≤ 2 ∧ 2 ≤ 3 ∧ retryOkFn (2 - 1) = Result.ok "yes"
    ∧ result.retry retryOkFn 3 = (Result.ok "yes", 2) :=
  ⟨by decide, by decide, by decide,
    retry_returns_first_ok retryOkFn 3 2 "yes" (by decide) (by decide) (by decide)
      (by
        intro i hi
        have hz : i = 0 := by omega
        exact ⟨"e0", by rw [hz]; decide⟩)⟩

/-- Claim C6: `retry(fn, 0)` invokes `fn` zero times and returns an Error whose
aggregate error has an empty errors list and message exactly
"Failed after 0 attempts." -/
theorem retry_zero_attempts {T E : Type} (fn : Nat → Result T E) :
    result.retry fn 0 =
      (Result.error ⟨"Result Retry Error", "Failed after 0 attempts.", []⟩, 0) :=
  rfl

/-- Claim C7: constructing a container from a raw shape with zero
variant-defining fields or with both set fails fast, and construction
succeeds exactly when precisely one of the two fields is present, in
which case the instance carries that variant. -/
theorem construction_invariant_fail_fast {T E : Type} (v : T) (e : E) :
    constructSucceeds (⟨Option.none, Option.none⟩ : RawShape T E) = false
    ∧ constructSucceeds (⟨Option.some v, Option.some e⟩ : RawShape T E) = false
    ∧ (∀ shape : RawShape T E,
        constructSucceeds shape = (shape.okField.isSome ^^ shape.errorField.isSome))
    ∧ (∀ v2 : T, resultConstruct (⟨Option.some v2, Option.none⟩ : RawShape T E) =
        Except.ok (Result.ok v2))
    ∧ (∀ e2 : E, resultConstruct (⟨Option.none, Option.some e2⟩ : RawShape T E) =
        Except.ok (Result.error e2)) := by
  refine ⟨rfl, rfl, ?_, fun _ => rfl, fun _ => rfl⟩
  intro shape
  obtain ⟨ok?, err?⟩ := shape
  cases ok? <;> cases err? <;> rfl

/-- Claim C8: `optional.from(fn)` returns None exactly when `fn`'s result is a
"no value" sentinel (null/undefined) and otherwise returns Some of that
very result; `from_async` satisfies the same contract on the awaited
result. -/
theorem optional_from_nullish_contract (v : JSValue) :
    (optional.from_ v = Optional.none ↔ v.isNullish = true)
    ∧ (optional.from_ v = Optional.some v ↔ v.isNullish = false)
    ∧ (∀ w : JSValue,
        optional.from_ v = Optional.some w ↔ (w = v ∧ v.isNullish = false))
    ∧ optional.from_async v = optional.from_ v
    ∧ optional.from_ JSValue.null = Optional.none
    ∧ optional.from_ JSValue.undefined = Optional.none := by
  refine ⟨?_, ?_, ?_, rfl, rfl, rfl⟩ <;>
    cases v <;> simp [optional.from_, JSValue.isNullish, eq_comm]

/-- Claim C9: every Retry Aggregate Error produced by `retry` — whether
attempts were exhausted or `maxAttempts` was 0 — has its name equal to
exactly "Result Retry Error". -/
theorem retry_error_name_fixed {T E : Type} (fn : Nat → Result T E) (N : Nat)
    (agg : RetryError E) (h : (result.retry fn N).1 = Result.error agg) :
    agg.name = "Result Retry Error" := by
  unfold result.retry at h
  exact retryLoop_error_named fn N N 0 [] agg h

theorem retry_error_name_fixed_witness :
    (result.retry (fun _ => Result.error (T := Nat) "boom") 2).1 =
      Result.error ⟨"Result Retry Error", "Failed after 2 attempts.",
        ["boom", "boom"]⟩
    ∧ (⟨"Result Retry Error", "Failed after 2 attempts.",
        ["boom", "boom"]⟩ : RetryError String).name = "Result Retry Error" :=
  ⟨by decide,
    retry_error_name_fixed (fun _ => Result.error (T := Nat) "boom") 2
      ⟨"Result Retry Error", "Failed after 2 attempts.", ["boom", "boom"]⟩
      (by decide)⟩

/-- Claim C10: every Result container carries the introspection tag "Result"
and every Optional container carries the introspection tag "Optional",
for both variants and for arbitrary instances. -/
theorem containers_introspection_tags {T E U : Type} (v : T) (e : E) (w : U)
    (r : Result T E) (o : Optional U) :
    (result.ok (E := E) v).toStringTag = "Result"
    ∧ (result.error (T := T) e).toStringTag = "Result"
    ∧ r.toStringTag = "Result"
    ∧ (optional.some w).toStringTag = "Optional"
    ∧ (optional.none (T := U)).toStringTag = "Optional"
    ∧ o.toStringTag = "Optional" :=
  ⟨rfl, rfl, rfl, rfl, rfl, rfl⟩

end TsUtils
